import Mathlib

/-!
Shallow embedding of `src/core/ollama_client.py` and the import list of
`test_ollama.py` from the personality-ai repository.

Modelling conventions:
- Python values that can flow through model-entry dictionaries are modelled by
  the inductive `PyVal` (strings, integers, rationals standing for floats that
  are only passed through and compared, Python `None`, and nested dicts as
  association lists).
- The underlying `ollama.Client` is abstract: a `Client` record whose
  operations return `Except OllamaError _`; a `.error` outcome models a raised
  exception, `.ok` a normal return.  `OllamaError.responseError` models
  `ollama.ResponseError` (carrying `error` text and `status_code`);
  `OllamaError.generic` models every other exception, carrying its `str()`.
- Each `logger.info` / `logger.error` call is modelled by a `LogEntry` holding
  the severity and the list of dynamic values interpolated into the f-string,
  in source order; the literal surrounding text is omitted.
- Every facade method returns its Python return value paired with the list of
  log entries it emitted, in order.
- Python truthiness on strings (`x or default`, `if system_prompt:`) is
  modelled explicitly: the empty string is falsy.
-/

/-- Python-style values appearing in model-descriptor dictionaries.
`float` uses `Rat` because the program only passes temperatures through and
formats them; it never computes with them. -/
inductive PyVal where
  | str (s : String)
  | int (n : Int)
  | float (q : Rat)
  | none
  | dict (d : List (String × PyVal))

mutual

/-- Decidable equality for `PyVal` (hand-rolled because of the nested
`dict` payload). -/
def PyVal.decEq : (a b : PyVal) → Decidable (a = b)
  | .str sa, .str sb =>
      if h : sa = sb then .isTrue (by rw [h]) else .isFalse (by simp [h])
  | .str _, .int _ => .isFalse nofun
  | .str _, .float _ => .isFalse nofun
  | .str _, .none => .isFalse nofun
  | .str _, .dict _ => .isFalse nofun
  | .int _, .str _ => .isFalse nofun
  | .int na, .int nb =>
      if h : na = nb then .isTrue (by rw [h]) else .isFalse (by simp [h])
  | .int _, .float _ => .isFalse nofun
  | .int _, .none => .isFalse nofun
  | .int _, .dict _ => .isFalse nofun
  | .float _, .str _ => .isFalse nofun
  | .float _, .int _ => .isFalse nofun
  | .float qa, .float qb =>
      if h : qa = qb then .isTrue (by rw [h]) else .isFalse (by simp [h])
  | .float _, .none => .isFalse nofun
  | .float _, .dict _ => .isFalse nofun
  | .none, .str _ => .isFalse nofun
  | .none, .int _ => .isFalse nofun
  | .none, .float _ => .isFalse nofun
  | .none, .none => .isTrue rfl
  | .none, .dict _ => .isFalse nofun
  | .dict _, .str _ => .isFalse nofun
  | .dict _, .int _ => .isFalse nofun
  | .dict _, .float _ => .isFalse nofun
  | .dict _, .none => .isFalse nofun
  | .dict da, .dict db =>
      match PyVal.decEqPairs da db with
      | .isTrue h => .isTrue (by rw [h])
      | .isFalse h => .isFalse (by simp [h])

/-- Decidable equality for dict payloads. -/
def PyVal.decEqPairs : (a b : List (String × PyVal)) → Decidable (a = b)
  | [], [] => .isTrue rfl
  | [], _ :: _ => .isFalse nofun
  | _ :: _, [] => .isFalse nofun
  | (ka, va) :: ra, (kb, vb) :: rb =>
      if hk : ka = kb then
        match PyVal.decEq va vb, PyVal.decEqPairs ra rb with
        | .isTrue hv, .isTrue hr => .isTrue (by rw [hk, hv, hr])
        | .isFalse hv, _ => .isFalse (by simp [hv])
        | _, .isFalse hr => .isFalse (by simp [hr])
      else .isFalse (by simp [hk])

end

instance : DecidableEq PyVal := PyVal.decEq

/-- A chat message: `{'role': ..., 'content': ...}`. -/
structure Message where
  role : String
  content : String
  deriving DecidableEq

/-- The two kinds of exception distinguished by the facade:
`ollama.ResponseError` (with `error` text and `status_code`) and any other
exception (with its `str()`). -/
inductive OllamaError where
  | responseError (error : String) (status_code : Int)
  | generic (msg : String)
  deriving DecidableEq

/-- `str(e)` of an exception, as logged by the generic `except Exception`
handlers. -/
def OllamaError.message : OllamaError → String
  | .responseError error _ => error
  | .generic msg => msg

/-- A structured (Pydantic) model entry returned by `client.list()`: the
`model` attribute is always present (it is what `hasattr(model, 'model')`
tests); the other attributes may be absent, in which case `getattr` defaults
apply. -/
structure PydanticModel where
  model : String
  size : Option PyVal
  modified_at : Option PyVal
  digest : Option PyVal
  details : Option PyVal
  deriving DecidableEq

/-- One entry of the server's model list: either a structured object
(`hasattr(model, 'model')` holds) or a plain dictionary. -/
inductive ModelEntry where
  | structured (m : PydanticModel)
  | mapping (d : List (String × PyVal))
  deriving DecidableEq

/-- Result of `client.list()`: `response.get('models', [])` means the
`models` key may be absent. -/
structure ListResponse where
  models : Option (List ModelEntry)
  deriving DecidableEq

/-- Argument shape of a `chat` call: model, messages, and the `options`
keyword (absent when the caller passes none, as `simple_chat` does). -/
structure ChatRequest where
  model : String
  messages : List Message
  options : Option (List (String × PyVal))
  deriving DecidableEq

/-- Result of a successful `chat` call; `response['message']['content']`
is `message.content`. -/
structure ChatResponse where
  message : Message
  deriving DecidableEq

/-- Argument shape of a `generate` call. -/
structure GenerateRequest where
  model : String
  prompt : String
  deriving DecidableEq

/-- Result of a successful `generate` call; `response['response']` is
`response`. -/
structure GenerateResponse where
  response : String
  deriving DecidableEq

/-- The abstract underlying `ollama.Client`: each operation either returns
normally (`.ok`) or raises (`.error`). -/
structure Client where
  host : String
  list : Except OllamaError ListResponse
  chat : ChatRequest → Except OllamaError ChatResponse
  generate : GenerateRequest → Except OllamaError GenerateResponse
  pull : String → Except OllamaError Unit

/-- Log severity of the two logging calls used (`logger.info`,
`logger.error`). -/
inductive Severity where
  | info
  | error
  deriving DecidableEq

/-- One logging call: severity plus the dynamic values interpolated into the
f-string, in source order (surrounding literal text omitted). -/
structure LogEntry where
  severity : Severity
  args : List PyVal
  deriving DecidableEq

/-- Python `a or b` restricted to optional strings: `None` and the empty
string are falsy. -/
def pyStrOr (a : Option String) (b : String) : String :=
  match a with
  | some s => if s = "" then b else s
  | none => b

/-- The facade object: configuration fixed at construction plus the wrapped
client. -/
structure OllamaClient where
  host : String
  model_name : String
  client : Client

/-- `OllamaClient.__init__`: host and model name come from the arguments,
falling back (by Python `or`) to the environment and then to the hard-coded
defaults; a `Client(host=...)` is built and an info line logged with the host
and model name. `env` models `os.getenv`, `newClient` the `Client`
constructor. -/
def OllamaClient.init (newClient : String → Client) (env : String → Option String)
    (host model_name : Option String) : OllamaClient × List LogEntry :=
  let h := pyStrOr host ((env "OLLAMA_HOST").getD "http://localhost:11434")
  let m := pyStrOr model_name ((env "MODEL_NAME").getD "gemma3:27b")
  ({ host := h, model_name := m, client := newClient h },
   [⟨Severity.info, [PyVal.str h, PyVal.str m]⟩])

/-- `test_connection`: calls `client.list()`; on success logs the model count
at info severity and returns `True`; any exception is logged at error severity
and yields `False`. -/
def OllamaClient.test_connection (c : OllamaClient) : Bool × List LogEntry :=
  match c.client.list with
  | .ok resp =>
      (true, [⟨Severity.info, [PyVal.int ((resp.models.getD []).length : Int)]⟩])
  | .error e => (false, [⟨Severity.error, [PyVal.str e.message]⟩])

/-- The per-entry normalisation loop body of `list_models`: a structured
(Pydantic) entry is projected into the canonical dict shape using the
`getattr` defaults `0`, `None`, `''`, `{}`; an entry already in dict shape is
appended unchanged. -/
def processModelEntry : ModelEntry → List (String × PyVal)
  | .structured m =>
      [("name", PyVal.str m.model),
       ("size", m.size.getD (PyVal.int 0)),
       ("modified_at", m.modified_at.getD PyVal.none),
       ("digest", m.digest.getD (PyVal.str "")),
       ("details", m.details.getD (PyVal.dict []))]
  | .mapping d => d

/-- `list_models`: calls `client.list()`, normalises each entry of
`response.get('models', [])` with `processModelEntry`; any exception is
logged at error severity and yields the empty list. -/
def OllamaClient.list_models (c : OllamaClient) :
    List (List (String × PyVal)) × List LogEntry :=
  match c.client.list with
  | .ok resp => ((resp.models.getD []).map processModelEntry, [])
  | .error e => ([], [⟨Severity.error, [PyVal.str e.message]⟩])

/-- The message array built by `generate_response`: a system message is
prepended only when `system_prompt` is truthy (given and non-empty), then the
user message with `prompt` is appended. -/
def generate_response_messages (prompt : String) (system_prompt : Option String) :
    List Message :=
  (match system_prompt with
   | some sp => if sp = "" then [] else [{ role := "system", content := sp }]
   | none => []) ++ [{ role := "user", content := prompt }]

/-- The `client.chat` request issued by `generate_response`: model defaults
(by Python `or`) to the configured model name; options carry `temperature`
and `num_predict` (the max token count) unchanged. -/
def OllamaClient.generate_response_request (c : OllamaClient) (prompt : String)
    (model : Option String) (system_prompt : Option String)
    (temperature : Rat) (max_tokens : Int) : ChatRequest :=
  { model := pyStrOr model c.model_name,
    messages := generate_response_messages prompt system_prompt,
    options := some [("temperature", PyVal.float temperature),
                     ("num_predict", PyVal.int max_tokens)] }

/-- `generate_response`: issues the chat request and returns
`response['message']['content']`; a `ResponseError` is logged at error
severity with its error text and status code, any other exception with its
`str()`; both yield `None`.  The Python defaults are `temperature=0.7`,
`max_tokens=1000`, applied at call sites. -/
def OllamaClient.generate_response (c : OllamaClient) (prompt : String)
    (model : Option String) (system_prompt : Option String)
    (temperature : Rat) (max_tokens : Int) : Option String × List LogEntry :=
  match c.client.chat
      (c.generate_response_request prompt model system_prompt temperature max_tokens) with
  | .ok r => (some r.message.content, [])
  | .error (.responseError err sc) =>
      (none, [⟨Severity.error, [PyVal.str err, PyVal.int sc]⟩])
  | .error (.generic msg) => (none, [⟨Severity.error, [PyVal.str msg]⟩])

/-- `generate_with_personality`: delegates to `generate_response` with
`system_prompt = personality_prompt`, `temperature = 0.8` hard-coded, and
`max_tokens` left at its default `1000`; no temperature parameter exists. -/
def OllamaClient.generate_with_personality (c : OllamaClient) (prompt : String)
    (personality_prompt : String) (model : Option String) :
    Option String × List LogEntry :=
  c.generate_response prompt model (some personality_prompt) (8/10) 1000

/-- `generate_simple`: single-shot `client.generate` call returning
`response['response']`; the same two exception handlers as
`generate_response`. -/
def OllamaClient.generate_simple (c : OllamaClient) (prompt : String)
    (model : Option String) : Option String × List LogEntry :=
  match c.client.generate { model := pyStrOr model c.model_name, prompt := prompt } with
  | .ok r => (some r.response, [])
  | .error (.responseError err sc) =>
      (none, [⟨Severity.error, [PyVal.str err, PyVal.int sc]⟩])
  | .error (.generic msg) => (none, [⟨Severity.error, [PyVal.str msg]⟩])

/-- The `client.chat` request issued by `chat_with_history`: the caller's
message list is passed verbatim; options carry only `temperature`. -/
def OllamaClient.chat_with_history_request (c : OllamaClient)
    (messages : List Message) (model : Option String) (temperature : Rat) :
    ChatRequest :=
  { model := pyStrOr model c.model_name,
    messages := messages,
    options := some [("temperature", PyVal.float temperature)] }

/-- `chat_with_history`: issues the chat request and returns
`response['message']['content']`; NOTE the `ResponseError` handler here logs
only `e.error` (no status code), unlike the other generation methods. -/
def OllamaClient.chat_with_history (c : OllamaClient) (messages : List Message)
    (model : Option String) (temperature : Rat) : Option String × List LogEntry :=
  match c.client.chat (c.chat_with_history_request messages model temperature) with
  | .ok r => (some r.message.content, [])
  | .error (.responseError err _) => (none, [⟨Severity.error, [PyVal.str err]⟩])
  | .error (.generic msg) => (none, [⟨Severity.error, [PyVal.str msg]⟩])

/-- The model-name list computed by `pull_model_if_needed`:
`[m.get('name', '') for m in models]`. -/
def model_names_of (models : List (List (String × PyVal))) : List PyVal :=
  models.map (fun m => (List.lookup "name" m).getD (PyVal.str ""))

/-- `pull_model_if_needed`: lists models (never raises), checks membership of
`model` in the name list; if present logs an info line and returns `True`
without touching `client.pull`; otherwise pulls, returning `True` on
completion (two info lines) and `False` on any exception (logged). -/
def OllamaClient.pull_model_if_needed (c : OllamaClient) (model : String) :
    Bool × List LogEntry :=
  let models := (c.list_models).1
  let lg := (c.list_models).2
  let names := model_names_of models
  if PyVal.str model ∈ names then
    (true, lg ++ [⟨Severity.info, [PyVal.str model]⟩])
  else
    match c.client.pull model with
    | .ok _ =>
        (true, lg ++ [⟨Severity.info, [PyVal.str model]⟩,
                      ⟨Severity.info, [PyVal.str model]⟩])
    | .error e =>
        (false, lg ++ [⟨Severity.info, [PyVal.str model]⟩,
                       ⟨Severity.error, [PyVal.str e.message]⟩])

/-- The model chosen by the standalone `simple_chat`: explicit `is None`
check, falling back to the environment and then to the hard-coded (smaller)
default `gemma3:1b`. -/
def simple_chat_model (env : String → Option String) (model : Option String) :
    String :=
  match model with
  | none => (env "MODEL_NAME").getD "gemma3:1b"
  | some m => m

/-- Standalone `simple_chat`: one-message chat request issued directly
against the module-level `ollama.chat` (modelled by `chatFn`), with no
options; returns the reply text or `None` on any exception (logged). -/
def simple_chat (chatFn : ChatRequest → Except OllamaError ChatResponse)
    (env : String → Option String) (message : String) (model : Option String) :
    Option String × List LogEntry :=
  match chatFn { model := simple_chat_model env model,
                 messages := [{ role := "user", content := message }],
                 options := none } with
  | .ok r => (some r.message.content, [])
  | .error e => (none, [⟨Severity.error, [PyVal.str e.message]⟩])

/-- `get_ollama_client`: the module global `_ollama_client` is the explicit
state (`none` models the initial `None`); a first call constructs
`OllamaClient()` (all-default arguments) and stores it, later calls return
the stored instance unchanged. Returns (result, new state). -/
def get_ollama_client (newClient : String → Client) (env : String → Option String)
    (st : Option OllamaClient) : OllamaClient × Option OllamaClient :=
  match st with
  | some c => (c, some c)
  | none =>
      let c := (OllamaClient.init newClient env none none).1
      (c, some c)

/-- The module-level names bound in `src/core/ollama_client.py` (imports,
class, functions, globals): what a `from ... import` can resolve. -/
def ollama_client_module_names : List String :=
  ["ollama", "Client", "ResponseError", "os", "Dict", "List", "Optional",
   "Any", "load_dotenv", "logging", "logger", "OllamaClient", "simple_chat",
   "_ollama_client", "get_ollama_client"]

/-- The names `test_ollama.py` line 9 requests from
`src.core.ollama_client`. -/
def test_ollama_requested_names : List String :=
  ["OllamaClient", "get_ollama_client", "simple_chat", "simple_generate"]

/-- A `from module import a, b, ...` statement succeeds iff every requested
name is bound in the module; otherwise it raises `ImportError` before any
later statement runs. -/
def from_import_succeeds (module_names requested : List String) : Bool :=
  requested.all (fun n => module_names.contains n)

/-- A client whose every operation raises `e`. -/
def failingClient (e : OllamaError) : Client :=
  { host := "http://localhost:11434",
    list := .error e,
    chat := fun _ => .error e,
    generate := fun _ => .error e,
    pull := fun _ => .error e }

/-- A facade wrapping a given client with the default configuration. -/
def facadeOn (cl : Client) : OllamaClient :=
  { host := cl.host, model_name := "gemma3:27b", client := cl }

/-- A facade whose underlying client always raises a generic exception. -/
def failFacade : OllamaClient :=
  facadeOn (failingClient (OllamaError.generic "connection refused"))

/-- C1: no exception escapes any facade method; every failure of the
underlying client call is caught and converted to the documented sentinel —
`false` for `test_connection` and `pull_model_if_needed`, the empty list for
`list_models`, `none` for the generation and chat methods.  (That no
exception escapes is also structural: each method's return type is the plain
value paired with its log, not an exceptional result.) -/
theorem facade_error_sentinels (c : OllamaClient) (e1 e2 e3 e4 : OllamaError)
    (hl : c.client.list = .error e1)
    (hc : ∀ r, c.client.chat r = .error e2)
    (hg : ∀ r, c.client.generate r = .error e3)
    (hp : ∀ s, c.client.pull s = .error e4) :
    (c.test_connection).1 = false ∧
    (c.list_models).1 = [] ∧
    (∀ p m sp t mt, (c.generate_response p m sp t mt).1 = none) ∧
    (∀ p pp m, (c.generate_with_personality p pp m).1 = none) ∧
    (∀ p m, (c.generate_simple p m).1 = none) ∧
    (∀ ms m t, (c.chat_with_history ms m t).1 = none) ∧
    (∀ m, (c.pull_model_if_needed m).1 = false) := by
  refine ⟨?_, ?_, ?_, ?_, ?_, ?_, ?_⟩
  · simp [OllamaClient.test_connection, hl]
  · simp [OllamaClient.list_models, hl]
  · intro p m sp t mt
    cases e2 <;> simp [OllamaClient.generate_response, hc]
  · intro p pp m
    cases e2 <;>
      simp [OllamaClient.generate_with_personality, OllamaClient.generate_response, hc]
  · intro p m
    cases e3 <;> simp [OllamaClient.generate_simple, hg]
  · intro ms m t
    cases e2 <;> simp [OllamaClient.chat_with_history, hc]
  · intro m
    simp [OllamaClient.pull_model_if_needed, OllamaClient.list_models, hl,
          model_names_of, hp]

/-- C1 witness: with a concrete client whose every call raises, each facade
method returns its sentinel. -/
theorem facade_error_sentinels_witness :
    (failFacade.test_connection).1 = false ∧
    (failFacade.list_models).1 = [] ∧
    (failFacade.generate_response "hi" none none (7/10) 1000).1 = none ∧
    (failFacade.generate_with_personality "hi" "be kind" none).1 = none ∧
    (failFacade.generate_simple "hi" none).1 = none ∧
    (failFacade.chat_with_history [{ role := "user", content := "hi" }] none (7/10)).1
      = none ∧
    (failFacade.pull_model_if_needed "gemma3:27b").1 = false := by
  have h := facade_error_sentinels failFacade
    (OllamaError.generic "connection refused") (OllamaError.generic "connection refused")
    (OllamaError.generic "connection refused") (OllamaError.generic "connection refused")
    rfl (fun _ => rfl) (fun _ => rfl) (fun _ => rfl)
  exact ⟨h.1, h.2.1, h.2.2.1 "hi" none none (7/10) 1000,
         h.2.2.2.1 "hi" "be kind" none, h.2.2.2.2.1 "hi" none,
         h.2.2.2.2.2.1 [{ role := "user", content := "hi" }] none (7/10),
         h.2.2.2.2.2.2 "gemma3:27b"⟩

/-- A client whose list call succeeds with one structured entry having only
the name attribute set. -/
def structuredListClient : Client :=
  { host := "http://localhost:11434",
    list := .ok { models := some [ModelEntry.structured
      { model := "llama3", size := none, modified_at := none,
        digest := none, details := none }] },
    chat := fun _ => .error (.generic "unused"),
    generate := fun _ => .error (.generic "unused"),
    pull := fun _ => .error (.generic "unused") }

/-- C2: when the server's model list holds one structured entry with only the
name attribute set, `list_models` produces the canonical mapping with that
name and the per-field defaults `size=0`, `modified_at=None`, `digest=''`,
`details={}`; entries already in mapping shape pass through unchanged. -/
theorem list_models_structured_defaults (c : OllamaClient) (nm : String)
    (h : c.client.list = .ok { models := some [ModelEntry.structured
        { model := nm, size := none, modified_at := none,
          digest := none, details := none }] }) :
    (c.list_models).1 =
      [[("name", PyVal.str nm), ("size", PyVal.int 0),
        ("modified_at", PyVal.none), ("digest", PyVal.str ""),
        ("details", PyVal.dict [])]] ∧
    (∀ d, processModelEntry (ModelEntry.mapping d) = d) := by
  constructor
  · simp [OllamaClient.list_models, h, processModelEntry]
  · intro d
    rfl

/-- C2 witness: the defaults materialise for a concrete one-entry server
response. -/
theorem list_models_structured_defaults_witness :
    ((facadeOn structuredListClient).list_models).1 =
      [[("name", PyVal.str "llama3"), ("size", PyVal.int 0),
        ("modified_at", PyVal.none), ("digest", PyVal.str ""),
        ("details", PyVal.dict [])]] :=
  (list_models_structured_defaults (facadeOn structuredListClient) "llama3" rfl).1

/-- C3: `generate_with_personality` returns exactly what `generate_response`
returns with `system_prompt = personality_prompt` and temperature 0.8 (and
the default `max_tokens = 1000`); the chat request that call issues carries
temperature 0.8 in its options. The Lean signature, like the Python one,
accepts no temperature parameter. -/
theorem generate_with_personality_fixed_temperature (c : OllamaClient)
    (prompt personality_prompt : String) (model : Option String) :
    c.generate_with_personality prompt personality_prompt model =
      c.generate_response prompt model (some personality_prompt) (8/10) 1000 ∧
    (c.generate_response_request prompt model (some personality_prompt) (8/10) 1000).options
      = some [("temperature", PyVal.float (8/10)), ("num_predict", PyVal.int 1000)] ∧
    List.lookup "temperature"
        ((c.generate_response_request prompt model (some personality_prompt)
            (8/10) 1000).options.getD [])
      = some (PyVal.float (8/10)) := by
  refine ⟨rfl, rfl, ?_⟩
  simp [OllamaClient.generate_response_request, List.lookup]

/-- C4: `chat_with_history` forwards the caller's message list verbatim as
the messages of the chat request — no system/user wrapping — and returns the
reply's text content on success, `none` on error. -/
theorem chat_with_history_forwards_verbatim (c : OllamaClient)
    (messages : List Message) (model : Option String) (temperature : Rat) :
    (c.chat_with_history_request messages model temperature).messages = messages ∧
    (∀ r, c.client.chat (c.chat_with_history_request messages model temperature) = .ok r →
       c.chat_with_history messages model temperature = (some r.message.content, [])) ∧
    (∀ e, c.client.chat (c.chat_with_history_request messages model temperature) = .error e →
       (c.chat_with_history messages model temperature).1 = none) := by
  refine ⟨rfl, ?_, ?_⟩
  · intro r hr
    simp [OllamaClient.chat_with_history, hr]
  · intro e he
    cases e <;> simp [OllamaClient.chat_with_history, he]

/-- A client scripted to answer any chat request with a fixed reply. -/
def scriptedChatClient : Client :=
  { host := "http://localhost:11434",
    list := .error (.generic "unused"),
    chat := fun _ => .ok { message :=
      { role := "assistant", content := "Your name is Xiaoming." } },
    generate := fun _ => .error (.generic "unused"),
    pull := fun _ => .error (.generic "unused") }

/-- A 4-message conversation ending in a user question. -/
def fourMessages : List Message :=
  [{ role := "system", content := "You are a concise assistant." },
   { role := "user", content := "Hi, my name is Xiaoming." },
   { role := "assistant", content := "Nice to meet you, Xiaoming." },
   { role := "user", content := "Do you remember my name?" }]

/-- C4 witness: the scripted 4-message conversation is forwarded unchanged
and the server's reply text is returned. -/
theorem chat_with_history_forwards_verbatim_witness :
    ((facadeOn scriptedChatClient).chat_with_history_request fourMessages none (7/10)).messages
      = fourMessages ∧
    (facadeOn scriptedChatClient).chat_with_history fourMessages none (7/10) =
      (some "Your name is Xiaoming.", []) := by
  have h := chat_with_history_forwards_verbatim (facadeOn scriptedChatClient)
    fourMessages none (7/10)
  exact ⟨h.1, h.2.1 { message :=
    { role := "assistant", content := "Your name is Xiaoming." } } rfl⟩

/-- C5: when `model` is in the name list derived from `list_models`,
`pull_model_if_needed` returns `true` whatever the pull operation does (so no
pull is consulted); when it is absent, the pull operation decides: `true` on
completion, `false` on exception. -/
theorem pull_model_if_needed_membership (c : OllamaClient) (model : String) :
    (PyVal.str model ∈ model_names_of (c.list_models).1 →
       ∀ pullOp : String → Except OllamaError Unit,
         (OllamaClient.pull_model_if_needed
           { c with client := { c.client with pull := pullOp } } model).1 = true) ∧
    (PyVal.str model ∉ model_names_of (c.list_models).1 →
       (∀ u, c.client.pull model = .ok u → (c.pull_model_if_needed model).1 = true) ∧
       (∀ e, c.client.pull model = .error e → (c.pull_model_if_needed model).1 = false)) := by
  constructor
  · intro h pullOp
    have h' : PyVal.str model ∈
        model_names_of (({ c with client := { c.client with pull := pullOp } } :
          OllamaClient).list_models).1 := h
    simp [OllamaClient.pull_model_if_needed, h']
  · intro h
    constructor
    · intro u hu
      simp [OllamaClient.pull_model_if_needed, h, hu]
    · intro e he
      simp [OllamaClient.pull_model_if_needed, h, he]

/-- A client that already has `gemma3:27b` (as a mapping entry) and whose
pull operation always fails. -/
def presentModelClient : Client :=
  { host := "http://localhost:11434",
    list := .ok { models := some [ModelEntry.mapping [("name", PyVal.str "gemma3:27b")]] },
    chat := fun _ => .error (.generic "unused"),
    generate := fun _ => .error (.generic "unused"),
    pull := fun _ => .error (.generic "server offline") }

/-- C5 witness: with `gemma3:27b` present, `pull_model_if_needed` returns
`true` even though the pull operation would fail; for an absent model the
failing pull makes it return `false`. -/
theorem pull_model_if_needed_membership_witness :
    ((facadeOn presentModelClient).pull_model_if_needed "gemma3:27b").1 = true ∧
    ((facadeOn presentModelClient).pull_model_if_needed "other:1b").1 = false := by
  have h1 := (pull_model_if_needed_membership (facadeOn presentModelClient) "gemma3:27b").1
    (by decide) (fun _ => Except.error (OllamaError.generic "server offline"))
  have h2 := ((pull_model_if_needed_membership (facadeOn presentModelClient) "other:1b").2
    (by decide)).2 (OllamaError.generic "server offline") rfl
  exact ⟨h1, h2⟩

/-- A client whose chat and generate calls raise a structured
`ResponseError` with message "model not found" and status code 404. -/
def notFoundClient : Client :=
  { host := "http://localhost:11434",
    list := .error (.generic "unused"),
    chat := fun _ => .error (.responseError "model not found" 404),
    generate := fun _ => .error (.responseError "model not found" 404),
    pull := fun _ => .error (.generic "unused") }

/-- C6 counterexample: against a server raising a structured response error
with status code 404, `chat_with_history` returns `none` but its single
error-severity log entry carries only the error text — the status code 404
appears in none of its log entries, contradicting the claim that every
generation method logs the status code. -/
theorem chat_with_history_drops_status_code :
    (facadeOn notFoundClient).chat_with_history
        [{ role := "user", content := "hi" }] none (7/10) =
      (none, [⟨Severity.error, [PyVal.str "model not found"]⟩]) ∧
    (∀ le ∈ ((facadeOn notFoundClient).chat_with_history
        [{ role := "user", content := "hi" }] none (7/10)).2,
      PyVal.int 404 ∉ le.args) := by
  constructor
  · rfl
  · decide

/-- C6 amended: on a structured response error, `generate_response` and
`generate_simple` log the error text and the status code and return `none`;
`chat_with_history` logs only the error text (no status code) and also
returns `none`; none of them raises. -/
theorem generation_methods_response_error_logging (c : OllamaClient)
    (err : String) (sc : Int)
    (hc : ∀ r, c.client.chat r = .error (.responseError err sc))
    (hg : ∀ r, c.client.generate r = .error (.responseError err sc)) :
    (∀ p m sp t mt, c.generate_response p m sp t mt =
       (none, [⟨Severity.error, [PyVal.str err, PyVal.int sc]⟩])) ∧
    (∀ p m, c.generate_simple p m =
       (none, [⟨Severity.error, [PyVal.str err, PyVal.int sc]⟩])) ∧
    (∀ ms m t, c.chat_with_history ms m t =
       (none, [⟨Severity.error, [PyVal.str err]⟩])) := by
  refine ⟨?_, ?_, ?_⟩
  · intro p m sp t mt
    simp [OllamaClient.generate_response, hc]
  · intro p m
    simp [OllamaClient.generate_simple, hg]
  · intro ms m t
    simp [OllamaClient.chat_with_history, hc]

/-- C6 amended witness: the three generation methods evaluated against the
concrete 404-raising client. -/
theorem generation_methods_response_error_logging_witness :
    (facadeOn notFoundClient).generate_response "hi" none none (7/10) 1000 =
      (none, [⟨Severity.error, [PyVal.str "model not found", PyVal.int 404]⟩]) ∧
    (facadeOn notFoundClient).generate_simple "hi" none =
      (none, [⟨Severity.error, [PyVal.str "model not found", PyVal.int 404]⟩]) ∧
    (facadeOn notFoundClient).chat_with_history
        [{ role := "user", content := "hi" }] none (7/10) =
      (none, [⟨Severity.error, [PyVal.str "model not found"]⟩]) := by
  have h := generation_methods_response_error_logging (facadeOn notFoundClient)
    "model not found" 404 (fun _ => rfl) (fun _ => rfl)
  exact ⟨h.1 "hi" none none (7/10) 1000, h.2.1 "hi" none,
         h.2.2 [{ role := "user", content := "hi" }] none (7/10)⟩

/-- C7 counterexample: with `system_prompt` given but equal to the empty
string (a falsy value), `generate_response` builds only the user message —
no system message is prepended, contradicting the claim that a system
message is prepended whenever a `system_prompt` is given. -/
theorem generate_response_empty_system_prompt :
    ((facadeOn notFoundClient).generate_response_request "hello" none (some "")
        (7/10) 1000).messages
      = [{ role := "user", content := "hello" }] ∧
    ((facadeOn notFoundClient).generate_response_request "hello" none (some "")
        (7/10) 1000).messages
      ≠ [{ role := "system", content := "" }, { role := "user", content := "hello" }] := by
  constructor
  · rfl
  · decide

/-- C7 amended: `generate_response` prepends a system message exactly when
`system_prompt` is given and non-empty (an empty one is treated as absent),
then appends the user message; the chat options carry `temperature` and
`num_predict = max_tokens` unchanged — no validation or clamping — and on a
successful chat call the reply text is returned. -/
theorem generate_response_builds_request (c : OllamaClient) (prompt : String)
    (model : Option String) (sp : String) (hsp : sp ≠ "")
    (temperature : Rat) (max_tokens : Int) :
    (c.generate_response_request prompt model (some sp) temperature max_tokens).messages
      = [{ role := "system", content := sp }, { role := "user", content := prompt }] ∧
    (c.generate_response_request prompt model none temperature max_tokens).messages
      = [{ role := "user", content := prompt }] ∧
    (c.generate_response_request prompt model (some "") temperature max_tokens).messages
      = [{ role := "user", content := prompt }] ∧
    (c.generate_response_request prompt model (some sp) temperature max_tokens).options
      = some [("temperature", PyVal.float temperature),
              ("num_predict", PyVal.int max_tokens)] ∧
    (∀ r, c.client.chat
        (c.generate_response_request prompt model (some sp) temperature max_tokens) = .ok r →
      c.generate_response prompt model (some sp) temperature max_tokens =
        (some r.message.content, [])) := by
  refine ⟨?_, rfl, rfl, rfl, ?_⟩
  · simp [OllamaClient.generate_response_request, generate_response_messages, hsp]
  · intro r hr
    simp [OllamaClient.generate_response, hr]

/-- C7 witness: concrete request construction and reply extraction with a
non-empty system prompt against the scripted client. -/
theorem generate_response_builds_request_witness :
    ((facadeOn scriptedChatClient).generate_response_request "hello" none
        (some "be brief") (7/10) 1000).messages
      = [{ role := "system", content := "be brief" },
         { role := "user", content := "hello" }] ∧
    (facadeOn scriptedChatClient).generate_response "hello" none (some "be brief")
        (7/10) 1000 = (some "Your name is Xiaoming.", []) := by
  have h := generate_response_builds_request (facadeOn scriptedChatClient) "hello"
    none "be brief" (by decide) (7/10) 1000
  exact ⟨h.1, h.2.2.2.2 { message :=
    { role := "assistant", content := "Your name is Xiaoming." } } rfl⟩

/-- C8: with `MODEL_NAME` unset, the facade's default model identifier is
`gemma3:27b` while the standalone `simple_chat` falls back to the smaller
`gemma3:1b`; the two defaults differ. -/
theorem default_model_identifiers_differ (newClient : String → Client)
    (env : String → Option String) (h : env "MODEL_NAME" = none) :
    (OllamaClient.init newClient env none none).1.model_name = "gemma3:27b" ∧
    simple_chat_model env none = "gemma3:1b" ∧
    (OllamaClient.init newClient env none none).1.model_name ≠
      simple_chat_model env none := by
  refine ⟨?_, ?_, ?_⟩ <;> simp [OllamaClient.init, simple_chat_model, pyStrOr, h]

/-- C8 witness: the two fallback defaults at the empty environment. -/
theorem default_model_identifiers_differ_witness :
    (OllamaClient.init (fun _ => failingClient (OllamaError.generic "unused"))
        (fun _ => none) none none).1.model_name = "gemma3:27b" ∧
    simple_chat_model (fun _ => none) none = "gemma3:1b" := by
  have h := default_model_identifiers_differ
    (fun _ => failingClient (OllamaError.generic "unused")) (fun _ => none) rfl
  exact ⟨h.1, h.2.1⟩

/-- C9: the singleton accessor constructs the facade at most once: from the
initial empty state it constructs the all-default instance and stores it;
from any stored state it returns that instance with the state unchanged, so
a second call after any call returns the first call's instance. -/
theorem get_ollama_client_singleton (newClient : String → Client)
    (env : String → Option String) (st : Option OllamaClient) :
    (get_ollama_client newClient env none).1 =
      (OllamaClient.init newClient env none none).1 ∧
    (∀ c, get_ollama_client newClient env (some c) = (c, some c)) ∧
    get_ollama_client newClient env ((get_ollama_client newClient env st).2) =
      ((get_ollama_client newClient env st).1,
       (get_ollama_client newClient env st).2) := by
  refine ⟨rfl, fun c => rfl, ?_⟩
  cases st <;> rfl

/-- C10: the smoke-test script's `from src.core.ollama_client import ...`
statement requests `simple_generate`, which the facade module does not bind,
so the import fails before any test runs. -/
theorem smoke_test_import_fails :
    from_import_succeeds ollama_client_module_names test_ollama_requested_names = false ∧
    "simple_generate" ∈ test_ollama_requested_names ∧
    "simple_generate" ∉ ollama_client_module_names := by
  refine ⟨rfl, ?_, ?_⟩ <;> decide
